import Mathlib

/-!
Formal model of `app.py`, a Streamlit "deep research" assistant.

The program is a linear script: read a topic, ask the model for clarifying
questions, collect answers, ask for a goal and search queries, run a
search/evaluate loop, and synthesize a report.  All external behaviour
(the model service's responses, the user's widget inputs, the environment
variable) is captured by an `Env` record; Streamlit's session store is a
`SessionState` record; every observable UI or API action is an `Effect`.
Each top-level Python function is embedded as a Lean definition of the
same name.
-/

namespace DeepResearch

/-- Python string characters, as a list of `Char`. -/
abbrev Chars := List Char

/-- Model of Python `str.strip()` on the character level: drop whitespace
from the front, then from the back. -/
def stripChars (cs : Chars) : Chars :=
  ((cs.dropWhile Char.isWhitespace).reverse.dropWhile Char.isWhitespace).reverse

/-- Model of Python `str.strip()`. -/
def pyStrip (s : String) : String :=
  String.mk (stripChars s.data)

/-- Model of Python `str.lower()`: lowercase every character. -/
def pyLower (s : String) : String :=
  String.mk (s.data.map Char.toLower)

/-- Model of Python `s.split("\n")`: split on every newline character,
keeping empty pieces (so the result of joining the pieces back with a
newline is the original string). -/
def splitNl : Chars → List Chars
  | [] => [[]]
  | c :: rest =>
    let r := splitNl rest
    if c = '\n' then [] :: r
    else
      match r with
      | [] => [[c]]
      | g :: gs => (c :: g) :: gs

/-- Model of Python `s.split("\n")` at the `String` level. -/
def pySplitNl (s : String) : List String :=
  (splitNl s.data).map String.mk

/-- Model of Python's substring test `needle in hay`. -/
def containsSub (needle : Chars) : Chars → Bool
  | [] => needle.isEmpty
  | c :: t => List.isPrefixOf needle (c :: t) || containsSub needle t

/-- A collected search result: the dict
`{"query": q, "resp_id": ..., "research_output": ...}` built by `run_search`. -/
structure CollectedResult where
  query : String
  resp_id : String
  research_output : String
deriving Repr, DecidableEq

/-- The plan parsed from the model's JSON: `{"goal": ..., "queries": [...]}`. -/
structure Plan where
  goal : String
  queries : List String
deriving Repr, DecidableEq

/-- The Streamlit session store (`st.session_state`), restricted to the keys
the script uses.  `Option` marks keys that may be absent; `research_started`
and `collected` are read with falsy/empty defaults in the script, so absence
and the default value coincide. -/
structure SessionState where
  clarify : Option (List String) := none
  last_topic : Option String := none
  goal_plan : Option Plan := none
  clarify_id : Option String := none
  last_answers : Option (List String) := none
  research_started : Bool := false
  collected : List CollectedResult := []
  queries : Option (List String) := none
deriving Repr, DecidableEq

/-- Everything external to the script: the credential variable, the user's
widget inputs, and the model service's responses, one field per call site. -/
structure Env where
  /-- `os.getenv('OPENAI_API_KEY')`: `none` when unset. -/
  apiKey : Option String
  /-- the raw value of the topic text input -/
  topicInput : String
  /-- the text of the clarifying-questions response -/
  clarifyText : String
  /-- the value of the text input keyed `answer_i` -/
  answerInput : Nat → String
  /-- `json.loads` of the goal-and-queries response text: `none` models a
  `json.loads` (or shape) failure, `some` the parsed plan -/
  planResult : Option Plan
  /-- the id of the goal-and-queries response -/
  planRespId : String
  /-- `resp.output[0].id` of the search response for a query -/
  respId : String → String
  /-- `resp.output[1].content[0].text` of the search response for a query -/
  researchOutput : String → String
  /-- the text of the evaluation (review) response -/
  reviewText : String
  /-- the text of the synthesis response -/
  synthesisText : String
  /-- `json.loads` of the more-queries response text: `none` models a
  `json.loads` failure -/
  moreResult : Option (List String)
  /-- whether the "Run Research" button reads true on this rerun -/
  buttonRun : Bool

/-- One observable action of the script: a UI output or an API request. -/
inductive Effect where
  | title (s : String)
  | write (s : String)
  | writeQueries (qs : List String)
  | subheader (s : String)
  | info (s : String)
  | error (s : String)
  | success (s : String)
  | warning (s : String)
  | markdown (s : String)
  | spinner (s : String)
  | apiCall (name : String) (arg : String)
deriving Repr, DecidableEq

/-- How one full top-to-bottom run of the script ends. -/
inductive Outcome where
  | returned (st : SessionState)
  | stopped
  | exception (what : String)
deriving Repr, DecidableEq

/-- The falsy test `not api_key` in `get_openai_client`: true when the
variable is unset or the empty string. -/
def keyMissing : Option String → Bool
  | none => true
  | some s => s == ""

/-- The message displayed by `get_openai_client` when the key is missing. -/
def keyErrMsg : String :=
  "OPENAI_API_KEY not set. Please set it in your environment or .env file."

/-- `get_topic`: the topic text input, stripped. -/
def get_topic (env : Env) : String :=
  pyStrip env.topicInput

/-- `get_clarifying_questions`: one model call, whose output text is split
on newlines. -/
def get_clarifying_questions (env : Env) (topic : String) :
    List Effect × List String :=
  ([Effect.apiCall "clarify" topic], pySplitNl env.clarifyText)

/-- `get_answers`: one text input per question, keyed by its index. -/
def get_answers (env : Env) (questions : List String) : List String :=
  questions.enum.map (fun p => env.answerInput p.1)

/-- The truthiness test `all(answers)`: every answer is a non-empty string. -/
def allAnswered (answers : List String) : Bool :=
  answers.all (fun a => !(a == ""))

/-- `get_goal_and_queries`: one model call whose response text is fed to
`json.loads`; `none` models the parse raising, `some` the parsed plan paired
with the response id that `main` stores as `clarify_id`. -/
def get_goal_and_queries (env : Env) (topic : String) :
    List Effect × Option (Plan × String) :=
  ([Effect.apiCall "goal_queries" topic],
   env.planResult.map (fun p => (p, env.planRespId)))

/-- `run_search`: the result dict built from the search response for `q`. -/
def run_search (env : Env) (q : String) : CollectedResult :=
  { query := q, resp_id := env.respId q, research_output := env.researchOutput q }

/-- `evaluate`: true when the lowercased review text contains `"yes"`. -/
def evaluate (reviewText : String) : Bool :=
  containsSub "yes".data (pyLower reviewText).data

/-- Step 2 of `main` (lines 118-123): reuse the cached clarifying questions
when present and the topic is unchanged, otherwise call the model and cache
the fresh questions together with the topic. -/
def clarifyPhase (env : Env) (st : SessionState) (topic : String) :
    List String × SessionState × List Effect :=
  match st.clarify with
  | some qs =>
    if st.last_topic = some topic then
      (qs, st, [])
    else
      let (effs, qs') := get_clarifying_questions env topic
      (qs', { st with clarify := some qs', last_topic := some topic }, effs)
  | none =>
    let (effs, qs') := get_clarifying_questions env topic
    (qs', { st with clarify := some qs', last_topic := some topic }, effs)

/-- Step 4 of `main` (lines 132-139): reuse the cached plan when present and
the answers are unchanged, otherwise call the model; `none` in the result
models `json.loads` raising on the response text, which nothing catches. -/
def planPhase (env : Env) (st : SessionState) (topic : String)
    (answers : List String) :
    List Effect × Option (Plan × Option String × SessionState) :=
  match st.goal_plan with
  | some p =>
    if st.last_answers = some answers then
      ([], some (p, st.clarify_id, st))
    else
      let g := get_goal_and_queries env topic
      (g.1, g.2.map (fun pr =>
        (pr.1, some pr.2,
          { st with goal_plan := some pr.1, clarify_id := some pr.2,
                    last_answers := some answers })))
  | none =>
    let g := get_goal_and_queries env topic
    (g.1, g.2.map (fun pr =>
      (pr.1, some pr.2,
        { st with goal_plan := some pr.1, clarify_id := some pr.2,
                  last_answers := some answers })))

/-- The trace of one loop iteration that does search: the spinner and the
search request. -/
def searchTrace (q : String) : List Effect :=
  [Effect.spinner ("Searching: " ++ q), Effect.apiCall "search" q]

/-- The body of the research loop (lines 153-159): skip a query already in
`collected`, otherwise search it, append the result, and write `collected`
and `queries` back to the session store. -/
def loopStep (env : Env) (queriesToRun : List String)
    (acc : List CollectedResult × SessionState × List Effect) (q : String) :
    List CollectedResult × SessionState × List Effect :=
  let (collected, st, effs) := acc
  if collected.any (fun item => item.query == q) then
    acc
  else
    let result := run_search env q
    let collected' := collected ++ [result]
    (collected',
      { st with collected := collected', queries := some queriesToRun },
      effs ++ searchTrace q)

/-- The research loop over `queries_to_run`. -/
def researchLoop (env : Env) (queriesToRun : List String)
    (collected : List CollectedResult) (st : SessionState) :
    List CollectedResult × SessionState × List Effect :=
  queriesToRun.foldl (loopStep env queriesToRun) (collected, st, [])

/-- Steps 5-7 of `main` (lines 149-179): the guarded research loop, the
evaluation, and either synthesis with a session reset or a request for more
queries. -/
def researchPhase (env : Env) (st : SessionState) (_clarifyId : Option String)
    (goal : String) (queries : List String) : List Effect × Outcome :=
  if env.buttonRun || st.research_started then
    let st1 := { st with research_started := true }
    let collected := st1.collected
    let queriesToRun :=
      if collected.isEmpty then queries else st1.queries.getD queries
    let loopRes := researchLoop env queriesToRun collected st1
    let st2 := loopRes.2.1
    let searchEffs := loopRes.2.2
    let evalEffs := [Effect.apiCall "evaluate" goal]
    if evaluate env.reviewText then
      (searchEffs ++ evalEffs ++
        [Effect.success "Goal satisfied! Generating final report...",
         Effect.apiCall "synthesize" goal,
         Effect.markdown env.synthesisText],
       Outcome.returned { st2 with research_started := false, collected := [] })
    else
      match env.moreResult with
      | none =>
        (searchEffs ++ evalEffs ++ [Effect.apiCall "more_queries" goal],
         Outcome.exception "json.loads")
      | some qs =>
        (searchEffs ++ evalEffs ++
          [Effect.apiCall "more_queries" goal,
           Effect.warning
             "More research needed. New queries generated. Click 'Run Research' again."],
         Outcome.returned { st2 with queries := some qs })
  else
    ([], Outcome.returned st)

/-- The two display effects at the top of `main`. -/
def headerEffs : List Effect :=
  [Effect.title "Deep Research Clone",
   Effect.write "AI-powered research assistant with web search."]

/-- One full top-to-bottom run of the script: `main` in `app.py`. -/
def mainRun (env : Env) (st0 : SessionState) : List Effect × Outcome :=
  if keyMissing env.apiKey then
    (headerEffs ++ [Effect.error keyErrMsg], Outcome.stopped)
  else
    let topic := get_topic env
    if topic = "" then
      (headerEffs ++ [Effect.info "Enter a research topic to begin."],
       Outcome.returned st0)
    else
      let cp := clarifyPhase env st0 topic
      let questions := cp.1
      let st1 := cp.2.1
      let clarifyEffs := cp.2.2
      let answers := get_answers env questions
      if !allAnswered answers then
        (headerEffs ++ clarifyEffs ++
          [Effect.info "Please answer all clarifying questions."],
         Outcome.returned st1)
      else
        let pp := planPhase env st1 topic answers
        let planEffs := pp.1
        match pp.2 with
        | none =>
          (headerEffs ++ clarifyEffs ++ planEffs, Outcome.exception "json.loads")
        | some (plan, clarifyId, st2) =>
          let goalEffs :=
            [Effect.subheader "Research Goal", Effect.write plan.goal,
             Effect.subheader "Initial Search Queries",
             Effect.writeQueries plan.queries]
          let rp := researchPhase env st2 clarifyId plan.goal plan.queries
          (headerEffs ++ clarifyEffs ++ planEffs ++ goalEffs ++ rp.1,
           rp.2)

/-- The queries of a trace's search calls, in order. -/
def searchedQueries (effs : List Effect) : List String :=
  effs.filterMap (fun e =>
    match e with
    | Effect.apiCall n q => if n = "search" then some q else none
    | _ => none)

/-- Specification-side description of which queries the loop searches: the
queries of the list not already seen, first occurrences only, in order. -/
def dedupNew (seen : List String) : List String → List String
  | [] => []
  | q :: rest =>
    if q ∈ seen then dedupNew seen rest
    else q :: dedupNew (seen ++ [q]) rest

/-- Join character groups with a newline between consecutive groups: the
inverse of `splitNl`. -/
def joinNl : List Chars → Chars
  | [] => []
  | g :: gs =>
    match gs with
    | [] => g
    | _ :: _ => g ++ '\n' :: joinNl gs

/-- The session state after the loop as a function of what the loop added:
untouched when nothing was appended, otherwise holding the final collected
list and the queries that were run. -/
def loopFinal (st : SessionState) (qtr : List String)
    (full : List CollectedResult) (newqs : List String) : SessionState :=
  if newqs.isEmpty then st
  else { st with collected := full, queries := some qtr }

/-- A concrete environment used to exercise the definitions. -/
def envW : Env where
  apiKey := some "sk-test"
  topicInput := "  quantum computing  "
  clarifyText := "1. Why?\n2. What?"
  answerInput := fun i => "answer" ++ toString i
  planResult := some { goal := "learn", queries := ["qa", "qb", "qa"] }
  planRespId := "resp-plan"
  respId := fun q => "id-" ++ q
  researchOutput := fun q => "out-" ++ q
  reviewText := "Yes."
  synthesisText := "report"
  moreResult := some ["qc"]
  buttonRun := true

/-- A concrete session state: the store of a fresh session. -/
def stW : SessionState := {}

/-! ### Helper lemmas about the string models -/

theorem containsSub_iff (n : Chars) : ∀ h : Chars, (containsSub n h = true) ↔ n <:+: h
  | [] => by
    simp [containsSub, List.isEmpty_iff, List.infix_nil]
  | c :: t => by
    rw [containsSub]
    simp only [Bool.or_eq_true, List.infix_cons_iff, List.isPrefixOf_iff_prefix]
    rw [containsSub_iff n t]

theorem splitNl_ne_nil : ∀ cs : Chars, splitNl cs ≠ []
  | [] => by simp [splitNl]
  | c :: rest => by
    simp only [splitNl]
    by_cases hc : c = '\n'
    · simp [hc]
    · simp only [if_neg hc]
      cases h : splitNl rest <;> simp

theorem splitNl_join : ∀ cs : Chars, joinNl (splitNl cs) = cs
  | [] => rfl
  | c :: rest => by
    have hne := splitNl_ne_nil rest
    have ih := splitNl_join rest
    simp only [splitNl]
    by_cases hc : c = '\n'
    · subst hc
      simp only [if_pos rfl]
      cases h : splitNl rest with
      | nil => exact absurd h hne
      | cons g gs =>
        rw [h] at ih
        simpa [joinNl] using ih
    · simp only [if_neg hc]
      cases h : splitNl rest with
      | nil => exact absurd h hne
      | cons g gs =>
        rw [h] at ih
        cases gs with
        | nil =>
          simp only [joinNl] at ih ⊢
          simp [ih]
        | cons g2 gs2 =>
          simp only [joinNl] at ih ⊢
          simp [ih]

theorem splitNl_length : ∀ cs : Chars, (splitNl cs).length = cs.count '\n' + 1
  | [] => by simp [splitNl]
  | c :: rest => by
    have hne := splitNl_ne_nil rest
    have ih := splitNl_length rest
    simp only [splitNl]
    by_cases hc : c = '\n'
    · subst hc
      simp [List.count_cons, ih]
    · simp only [if_neg hc]
      cases h : splitNl rest with
      | nil => exact absurd h hne
      | cons g gs =>
        rw [h] at ih
        simp only [List.length_cons] at ih ⊢
        simp [List.count_cons, hc, ih]

/-! ### Helper lemmas about the research loop -/

theorem any_query_mem (c : List CollectedResult) (q : String) :
    (c.any (fun item => item.query == q) = true) ↔ q ∈ c.map CollectedResult.query := by
  rw [List.any_eq_true]
  constructor
  · rintro ⟨x, hx, hq⟩
    exact List.mem_map.2 ⟨x, hx, by simpa using hq⟩
  · intro h
    rcases List.mem_map.1 h with ⟨x, hx, hq⟩
    exact ⟨x, hx, by simp [hq]⟩

theorem mem_dedupNew : ∀ {seen qs : List String} {q : String},
    q ∈ dedupNew seen qs → q ∈ qs ∧ q ∉ seen := by
  intro seen qs
  induction qs generalizing seen with
  | nil => intro q hq; simp [dedupNew] at hq
  | cons q' rest ih =>
    intro q hq
    rw [dedupNew] at hq
    by_cases h : q' ∈ seen
    · rw [if_pos h] at hq
      rcases ih hq with ⟨h1, h2⟩
      exact ⟨List.mem_cons_of_mem _ h1, h2⟩
    · rw [if_neg h] at hq
      rcases List.mem_cons.1 hq with rfl | hq'
      · exact ⟨List.mem_cons_self _ _, h⟩
      · rcases ih hq' with ⟨h1, h2⟩
        refine ⟨List.mem_cons_of_mem _ h1, fun hs => h2 ?_⟩
        exact List.mem_append_left _ hs

theorem dedupNew_mem_of : ∀ {seen qs : List String} {q : String},
    q ∈ qs → q ∉ seen → q ∈ dedupNew seen qs := by
  intro seen qs
  induction qs generalizing seen with
  | nil => intro q hq; simp at hq
  | cons q' rest ih =>
    intro q hq hns
    rw [dedupNew]
    by_cases h : q' ∈ seen
    · rw [if_pos h]
      rcases List.mem_cons.1 hq with rfl | hq'
      · exact absurd h hns
      · exact ih hq' hns
    · rw [if_neg h]
      rcases List.mem_cons.1 hq with rfl | hq'
      · exact List.mem_cons_self _ _
      · by_cases hqq : q = q'
        · subst hqq; exact List.mem_cons_self _ _
        · refine List.mem_cons_of_mem _ (ih hq' ?_)
          simp [hns, hqq]

theorem dedupNew_nodup : ∀ (seen qs : List String), (dedupNew seen qs).Nodup := by
  intro seen qs
  induction qs generalizing seen with
  | nil => simp [dedupNew]
  | cons q' rest ih =>
    rw [dedupNew]
    by_cases h : q' ∈ seen
    · rw [if_pos h]; exact ih seen
    · rw [if_neg h]
      refine List.nodup_cons.2 ⟨fun hmem => ?_, ih _⟩
      rcases mem_dedupNew hmem with ⟨_, h2⟩
      exact h2 (List.mem_append_right _ (List.mem_singleton.2 rfl))

theorem foldl_loopStep_eq (env : Env) (qtr : List String) :
    ∀ (qs : List String) (c : List CollectedResult) (st : SessionState) (e : List Effect),
      List.foldl (loopStep env qtr) (c, st, e) qs =
        (c ++ (dedupNew (c.map CollectedResult.query) qs).map (run_search env),
         loopFinal st qtr
           (c ++ (dedupNew (c.map CollectedResult.query) qs).map (run_search env))
           (dedupNew (c.map CollectedResult.query) qs),
         e ++ (dedupNew (c.map CollectedResult.query) qs).flatMap searchTrace) := by
  intro qs
  induction qs with
  | nil =>
    intro c st e
    simp [dedupNew, loopFinal]
  | cons q qs ih =>
    intro c st e
    rw [List.foldl_cons]
    by_cases h : c.any (fun item => item.query == q) = true
    · have hmem : q ∈ c.map CollectedResult.query := (any_query_mem c q).1 h
      have hstep : loopStep env qtr (c, st, e) q = (c, st, e) := by
        simp [loopStep, h]
      rw [hstep, ih c st e, dedupNew, if_pos hmem]
    · have hmem : q ∉ c.map CollectedResult.query := fun hm =>
        h ((any_query_mem c q).2 hm)
      have hstep : loopStep env qtr (c, st, e) q =
          (c ++ [run_search env q],
           { st with collected := c ++ [run_search env q], queries := some qtr },
           e ++ searchTrace q) := by
        simp [loopStep, h]
      rw [hstep, ih]
      have hq : (c ++ [run_search env q]).map CollectedResult.query =
          c.map CollectedResult.query ++ [q] := by
        simp [run_search]
      rw [hq, dedupNew, if_neg hmem]
      cases hd : dedupNew (c.map CollectedResult.query ++ [q]) qs with
      | nil =>
        simp [loopFinal]
      | cons d ds =>
        simp [loopFinal]

theorem researchLoop_eq (env : Env) (qtr : List String)
    (c : List CollectedResult) (st : SessionState) :
    researchLoop env qtr c st =
      (c ++ (dedupNew (c.map CollectedResult.query) qtr).map (run_search env),
       loopFinal st qtr
         (c ++ (dedupNew (c.map CollectedResult.query) qtr).map (run_search env))
         (dedupNew (c.map CollectedResult.query) qtr),
       (dedupNew (c.map CollectedResult.query) qtr).flatMap searchTrace) := by
  simpa [researchLoop] using foldl_loopStep_eq env qtr qtr c st []

theorem searchedQueries_searchTrace (q : String) :
    searchedQueries (searchTrace q) = [q] := by
  simp [searchedQueries, searchTrace]

theorem searchedQueries_append (a b : List Effect) :
    searchedQueries (a ++ b) = searchedQueries a ++ searchedQueries b := by
  simp [searchedQueries, List.filterMap_append]

theorem searchedQueries_flatMap : ∀ qs : List String,
    searchedQueries (qs.flatMap searchTrace) = qs
  | [] => rfl
  | q :: qs => by
    rw [List.flatMap_cons, searchedQueries_append, searchedQueries_searchTrace,
      searchedQueries_flatMap qs]
    rfl

theorem map_query_map_run_search (env : Env) : ∀ d : List String,
    (d.map (run_search env)).map CollectedResult.query = d
  | [] => rfl
  | q :: d => by
    simp only [List.map_cons, map_query_map_run_search env d]
    rfl

/-! ### The claims -/

/-- Claim C1: in the research loop, `run_search` is invoked for a query and
its result appended to `collected` only if no element already in `collected`
has that query string; a query already in `collected` is not re-searched and
adds no new element with that query. -/
theorem research_skips_duplicate_queries (env : Env) (qtr : List String)
    (c : List CollectedResult) (st : SessionState) :
    (∀ q, q ∈ c.map CollectedResult.query →
      q ∉ searchedQueries (researchLoop env qtr c st).2.2 ∧
      (researchLoop env qtr c st).1.filter (fun r => r.query == q) =
        c.filter (fun r => r.query == q)) ∧
    (∀ q, q ∈ searchedQueries (researchLoop env qtr c st).2.2 →
      q ∈ qtr ∧ q ∉ c.map CollectedResult.query ∧
      run_search env q ∈ (researchLoop env qtr c st).1) := by
  rw [researchLoop_eq]
  simp only [searchedQueries_flatMap]
  constructor
  · intro q hq
    constructor
    · intro hmem
      exact (mem_dedupNew hmem).2 hq
    · rw [List.filter_append]
      have hnil : ((dedupNew (c.map CollectedResult.query) qtr).map
          (run_search env)).filter (fun r => r.query == q) = [] := by
        rw [List.filter_eq_nil_iff]
        intro r hr
        rcases List.mem_map.1 hr with ⟨q', hq', rfl⟩
        have hne : q' ≠ q := fun h => (mem_dedupNew (h ▸ hq')).2 hq
        simp [run_search, hne]
      rw [hnil, List.append_nil]
  · intro q hq
    rcases mem_dedupNew hq with ⟨h1, h2⟩
    exact ⟨h1, h2, List.mem_append_right _ (List.mem_map.2 ⟨q, hq, rfl⟩)⟩

theorem research_skips_duplicate_queries_witness :
    ("qa" ∉ searchedQueries
        (researchLoop envW ["qa", "qb"] [run_search envW "qa"] stW).2.2) ∧
    (researchLoop envW ["qa", "qb"] [run_search envW "qa"] stW).1.filter
        (fun r => r.query == "qa") =
      [run_search envW "qa"].filter (fun r => r.query == "qa") :=
  (research_skips_duplicate_queries envW ["qa", "qb"]
    [run_search envW "qa"] stW).1 "qa" (by decide)

/-- Claim C8: the query fields of the collected list are pairwise distinct
throughout the research loop: every loop step preserves distinctness, and the
whole loop — both its returned list and what it stores in the session state —
preserves distinctness. -/
theorem collected_queries_nodup (env : Env) (qtr : List String) :
    (∀ (acc : List CollectedResult × SessionState × List Effect) (q : String),
      (acc.1.map CollectedResult.query).Nodup →
      ((loopStep env qtr acc q).1.map CollectedResult.query).Nodup) ∧
    (∀ (c : List CollectedResult) (st : SessionState),
      (c.map CollectedResult.query).Nodup →
      ((researchLoop env qtr c st).1.map CollectedResult.query).Nodup ∧
      (st.collected = c →
        ((researchLoop env qtr c st).2.1.collected.map CollectedResult.query).Nodup)) := by
  constructor
  · rintro ⟨c, st, e⟩ q hnd
    by_cases h : c.any (fun item => item.query == q) = true
    · simpa [loopStep, h] using hnd
    · have hmem : q ∉ c.map CollectedResult.query := fun hm =>
        h ((any_query_mem c q).2 hm)
      have : (loopStep env qtr (c, st, e) q).1 = c ++ [run_search env q] := by
        simp [loopStep, h]
      rw [this]
      rw [List.map_append]
      refine List.Nodup.append hnd (by simp [run_search]) ?_
      intro a ha hb
      simp only [List.map_cons, List.map_nil, List.mem_singleton, run_search] at hb
      exact hmem (hb ▸ ha)
  · intro c st hnd
    have hfull : ((researchLoop env qtr c st).1.map CollectedResult.query).Nodup := by
      rw [researchLoop_eq]
      simp only [List.map_append, map_query_map_run_search]
      refine List.Nodup.append hnd (dedupNew_nodup _ _) ?_
      intro a ha hb
      exact (mem_dedupNew hb).2 ha
    refine ⟨hfull, fun hc => ?_⟩
    rw [researchLoop_eq] at hfull ⊢
    rw [loopFinal]
    by_cases hd : (dedupNew (c.map CollectedResult.query) qtr).isEmpty = true
    · rw [if_pos hd, hc]
      simpa [List.isEmpty_iff.1 hd] using hfull
    · rw [if_neg hd]
      simpa using hfull

theorem collected_queries_nodup_witness :
    ((researchLoop envW ["qa", "qb", "qa"] [] stW).1.map CollectedResult.query).Nodup :=
  (((collected_queries_nodup envW ["qa", "qb", "qa"]).2 [] stW (by simp))).1

/-- Claim C2: `evaluate` returns true exactly when the lowercased text of the
review response contains the substring `"yes"`. -/
theorem evaluate_iff_yes (reviewText : String) :
    evaluate reviewText = true ↔
      ∃ pre post : Chars, pre ++ "yes".data ++ post = (pyLower reviewText).data :=
  containsSub_iff "yes".data (pyLower reviewText).data

/-- Claim C6: `get_clarifying_questions` returns exactly the model's output
text split on the newline character, in order and unfiltered: joining the
returned pieces back with newlines recovers the text, and the number of
pieces is one more than the number of newlines in the text (so nothing
guarantees five questions). -/
theorem clarifying_questions_split (env : Env) (topic : String) :
    (get_clarifying_questions env topic).2 =
        (splitNl env.clarifyText.data).map String.mk ∧
    joinNl (splitNl env.clarifyText.data) = env.clarifyText.data ∧
    (get_clarifying_questions env topic).2.length =
        env.clarifyText.data.count '\n' + 1 := by
  refine ⟨rfl, splitNl_join _, ?_⟩
  simp [get_clarifying_questions, pySplitNl, splitNl_length]

/-- Claim C7: `get_answers` returns one answer per question, positionally
aligned: the list has the same length as the questions and its i-th entry is
the value of the text input keyed by index i. -/
theorem answers_aligned (env : Env) (questions : List String) :
    (get_answers env questions).length = questions.length ∧
    ∀ (i : Nat) (h : i < (get_answers env questions).length),
      (get_answers env questions).get ⟨i, h⟩ = env.answerInput i := by
  constructor
  · simp [get_answers, List.enum_eq_enumFrom]
  · intro i h
    simp [get_answers, List.get_eq_getElem, List.enum_eq_enumFrom]

theorem answers_aligned_witness :
    (get_answers envW ["one?", "two?"]).get ⟨1, by decide⟩ = envW.answerInput 1 :=
  (answers_aligned envW ["one?", "two?"]).2 1 (by decide)

/-! ### Helper lemmas about `mainRun` -/

theorem mainRun_key_missing {env : Env} (st0 : SessionState)
    (h : keyMissing env.apiKey = true) :
    mainRun env st0 = (headerEffs ++ [Effect.error keyErrMsg], Outcome.stopped) := by
  simp [mainRun, h]

theorem mainRun_empty_topic {env : Env} (st0 : SessionState)
    (hk : keyMissing env.apiKey = false) (ht : get_topic env = "") :
    mainRun env st0 =
      (headerEffs ++ [Effect.info "Enter a research topic to begin."],
       Outcome.returned st0) := by
  simp [mainRun, hk, ht]

theorem mainRun_unanswered {env : Env} (st0 : SessionState)
    (hk : keyMissing env.apiKey = false) (ht : ¬ get_topic env = "")
    (ha : allAnswered (get_answers env (clarifyPhase env st0 (get_topic env)).1)
      = false) :
    mainRun env st0 =
      (headerEffs ++ (clarifyPhase env st0 (get_topic env)).2.2 ++
        [Effect.info "Please answer all clarifying questions."],
       Outcome.returned (clarifyPhase env st0 (get_topic env)).2.1) := by
  simp [mainRun, hk, ht, ha]

theorem clarifyPhase_effs (env : Env) (st : SessionState) (topic : String) :
    (clarifyPhase env st topic).2.2 = [] ∨
    (clarifyPhase env st topic).2.2 = [Effect.apiCall "clarify" topic] := by
  cases h : st.clarify with
  | none =>
    right
    simp [clarifyPhase, h, get_clarifying_questions]
  | some qs =>
    by_cases hlt : st.last_topic = some topic
    · left
      simp [clarifyPhase, h, hlt]
    · right
      simp [clarifyPhase, h, hlt, get_clarifying_questions]

theorem planPhase_fresh_none {env : Env} {st : SessionState} {topic : String}
    {answers : List String}
    (hmiss : st.goal_plan = none ∨ st.last_answers ≠ some answers)
    (hp : env.planResult = none) :
    planPhase env st topic answers =
      ([Effect.apiCall "goal_queries" topic], none) := by
  cases h : st.goal_plan with
  | none => simp [planPhase, get_goal_and_queries, h, hp]
  | some p =>
    have hla : st.last_answers ≠ some answers := by
      rcases hmiss with hm | hm
      · rw [h] at hm; cases hm
      · exact hm
    simp [planPhase, get_goal_and_queries, h, hla, hp]

/-- Claim C3: an empty (stripped) topic makes `main` show an informational
prompt and return with no model API call at all; a non-empty topic with some
empty clarifying answer makes `main` show an informational message and return
before goal/query generation and before any search. -/
theorem early_return_on_missing_input :
    (∀ (env : Env) (st0 : SessionState),
      keyMissing env.apiKey = false → get_topic env = "" →
      mainRun env st0 =
        (headerEffs ++ [Effect.info "Enter a research topic to begin."],
         Outcome.returned st0) ∧
      ∀ n a, Effect.apiCall n a ∉ (mainRun env st0).1) ∧
    (∀ (env : Env) (st0 : SessionState),
      keyMissing env.apiKey = false → get_topic env ≠ "" →
      allAnswered (get_answers env (clarifyPhase env st0 (get_topic env)).1)
        = false →
      (mainRun env st0).2 =
        Outcome.returned (clarifyPhase env st0 (get_topic env)).2.1 ∧
      Effect.info "Please answer all clarifying questions." ∈ (mainRun env st0).1 ∧
      ∀ a, Effect.apiCall "goal_queries" a ∉ (mainRun env st0).1 ∧
           Effect.apiCall "search" a ∉ (mainRun env st0).1) := by
  constructor
  · intro env st0 hk ht
    rw [mainRun_empty_topic st0 hk ht]
    refine ⟨rfl, ?_⟩
    intro n a
    simp [headerEffs]
  · intro env st0 hk ht ha
    rw [mainRun_unanswered st0 hk ht ha]
    refine ⟨rfl, by simp, ?_⟩
    intro a
    rcases clarifyPhase_effs env st0 (get_topic env) with hce | hce <;>
      rw [hce] <;> simp [headerEffs]

theorem early_return_on_missing_input_witness :
    mainRun { envW with topicInput := "" } stW =
      (headerEffs ++ [Effect.info "Enter a research topic to begin."],
       Outcome.returned stW) ∧
    (mainRun { envW with answerInput := fun _ => "" } stW).2 =
      Outcome.returned
        (clarifyPhase { envW with answerInput := fun _ => "" } stW
          (get_topic { envW with answerInput := fun _ => "" })).2.1 :=
  ⟨(early_return_on_missing_input.1 { envW with topicInput := "" } stW
      (by decide) (by decide)).1,
   (early_return_on_missing_input.2 { envW with answerInput := fun _ => "" } stW
      (by decide) (by decide) (by decide)).1⟩

/-- Claim C4: when the OPENAI_API_KEY variable is unset or empty, the run
displays the error message and stops, with no API call in its trace. -/
theorem missing_key_halts (env : Env) (st0 : SessionState)
    (h : keyMissing env.apiKey = true) :
    mainRun env st0 = (headerEffs ++ [Effect.error keyErrMsg], Outcome.stopped) ∧
    ∀ n a, Effect.apiCall n a ∉ (mainRun env st0).1 := by
  rw [mainRun_key_missing st0 h]
  refine ⟨rfl, ?_⟩
  intro n a
  simp [headerEffs, keyErrMsg]

theorem missing_key_halts_witness :
    mainRun { envW with apiKey := none } stW =
      (headerEffs ++ [Effect.error keyErrMsg], Outcome.stopped) ∧
    mainRun { envW with apiKey := some "" } stW =
      (headerEffs ++ [Effect.error keyErrMsg], Outcome.stopped) :=
  ⟨(missing_key_halts { envW with apiKey := none } stW (by decide)).1,
   (missing_key_halts { envW with apiKey := some "" } stW (by decide)).1⟩

/-- Claim C10: `get_topic` strips surrounding whitespace, so a topic of only
whitespace strips to the empty string and the run behaves exactly like the
empty-topic case: the informational prompt and an early return with no
clarifying-questions call. -/
theorem whitespace_topic_like_empty :
    (∀ s : String, (∀ c ∈ s.data, c.isWhitespace) → pyStrip s = "") ∧
    (∀ (env : Env) (st0 : SessionState),
      keyMissing env.apiKey = false →
      (∀ c ∈ env.topicInput.data, c.isWhitespace) →
      mainRun env st0 =
        (headerEffs ++ [Effect.info "Enter a research topic to begin."],
         Outcome.returned st0) ∧
      ∀ a, Effect.apiCall "clarify" a ∉ (mainRun env st0).1) := by
  have hstrip : ∀ s : String, (∀ c ∈ s.data, c.isWhitespace) → pyStrip s = "" := by
    intro s hws
    have h1 : s.data.dropWhile Char.isWhitespace = [] :=
      List.dropWhile_eq_nil_iff.2 hws
    simp [pyStrip, stripChars, h1]
  refine ⟨hstrip, ?_⟩
  intro env st0 hk hws
  have ht : get_topic env = "" := hstrip env.topicInput hws
  rw [mainRun_empty_topic st0 hk ht]
  refine ⟨rfl, ?_⟩
  intro a
  simp [headerEffs]

theorem whitespace_topic_like_empty_witness :
    pyStrip " \t  " = "" ∧
    mainRun { envW with topicInput := " \t  " } stW =
      (headerEffs ++ [Effect.info "Enter a research topic to begin."],
       Outcome.returned stW) :=
  ⟨whitespace_topic_like_empty.1 " \t  " (by decide),
   (whitespace_topic_like_empty.2 { envW with topicInput := " \t  " } stW
      (by decide) (by decide)).1⟩

/-- Claim C5: when the model response text fed to `json.loads` is not valid
JSON — in `get_goal_and_queries`, or in the follow-up more-queries call — the
run ends in an uncaught exception: there is no fallback, retry, or recovery
branch. -/
theorem json_failure_uncaught :
    (∀ (env : Env) (st0 : SessionState),
      keyMissing env.apiKey = false → get_topic env ≠ "" →
      allAnswered (get_answers env (clarifyPhase env st0 (get_topic env)).1)
        = true →
      ((clarifyPhase env st0 (get_topic env)).2.1.goal_plan = none ∨
        (clarifyPhase env st0 (get_topic env)).2.1.last_answers ≠
          some (get_answers env (clarifyPhase env st0 (get_topic env)).1)) →
      env.planResult = none →
      (mainRun env st0).2 = Outcome.exception "json.loads") ∧
    (∀ (env : Env) (st : SessionState) (cid : Option String) (goal : String)
        (queries : List String),
      (env.buttonRun || st.research_started) = true →
      evaluate env.reviewText = false →
      env.moreResult = none →
      (researchPhase env st cid goal queries).2 = Outcome.exception "json.loads") := by
  constructor
  · intro env st0 hk ht ha hmiss hp
    have hplan := @planPhase_fresh_none env
      ((clarifyPhase env st0 (get_topic env)).2.1) (get_topic env)
      (get_answers env (clarifyPhase env st0 (get_topic env)).1)
      hmiss hp
    simp [mainRun, hk, ht, ha, hplan]
  · intro env st cid goal queries hrun he hm
    simp [researchPhase, hrun, he, hm]

theorem json_failure_uncaught_witness :
    (mainRun { envW with planResult := none } stW).2 =
      Outcome.exception "json.loads" ∧
    (researchPhase { envW with reviewText := "No", moreResult := none } stW
      (some "cid") "goal" ["qa"]).2 = Outcome.exception "json.loads" :=
  ⟨json_failure_uncaught.1 { envW with planResult := none } stW
      (by decide) (by decide) (by decide) (by decide) (by decide),
   json_failure_uncaught.2 { envW with reviewText := "No", moreResult := none }
      stW (some "cid") "goal" ["qa"] (by decide) (by decide) (by decide)⟩

/-- Claim C9: on the branch where `evaluate` returns true, the run ends with
`research_started` set to false and `collected` set to the empty list on top
of the post-loop session state; on the branch where `evaluate` returns false
(and the new queries parse), the post-loop session state is returned with
only `queries` replaced by the newly generated list. -/
theorem evaluate_branch_frame (env : Env) (st : SessionState) (cid : Option String)
    (goal : String) (queries : List String)
    (hrun : (env.buttonRun || st.research_started) = true) :
    (evaluate env.reviewText = true →
      (researchPhase env st cid goal queries).2 =
        Outcome.returned
          { (researchLoop env
               (if st.collected.isEmpty then queries else st.queries.getD queries)
               st.collected { st with research_started := true }).2.1 with
            research_started := false, collected := [] }) ∧
    (∀ qs, evaluate env.reviewText = false → env.moreResult = some qs →
      (researchPhase env st cid goal queries).2 =
        Outcome.returned
          { (researchLoop env
               (if st.collected.isEmpty then queries else st.queries.getD queries)
               st.collected { st with research_started := true }).2.1 with
            queries := some qs }) := by
  constructor
  · intro he
    simp [researchPhase, hrun, he]
  · intro qs he hm
    simp [researchPhase, hrun, he, hm]

theorem evaluate_branch_frame_witness :
    (researchPhase envW stW (some "cid") "goal" ["qa"]).2 =
      Outcome.returned
        { (researchLoop envW
             (if stW.collected.isEmpty then ["qa"] else stW.queries.getD ["qa"])
             stW.collected { stW with research_started := true }).2.1 with
          research_started := false, collected := [] } :=
  (evaluate_branch_frame envW stW (some "cid") "goal" ["qa"] (by decide)).1
    (by decide)

end DeepResearch
